import Mathlib

/-!
Verification of the ArachnoNestor motion supervisor against its
natural-language specification.

The definitions below are a shallow embedding of the Python sources:
  * backend/controller/motor/safety.py        (SafetyMonitor)
  * backend/controller/motor/motion_controller.py (MotionController)
  * backend/controller/drivers/modbus_motor.py    (Modbus helpers)
  * backend/Testing_env/drivers/bld510b.py        (legacy drive helpers)
  * backend/controller/motor_controller.py        (MotorController class)
  * backend/controller/tcp/evb.py                 (sensor response parsers)

Python floats are embedded as exact rationals (ℚ); Python ints as ℤ/ℕ;
dicts as association lists keyed in insertion order; functions that raise
return a pair of the mutated state and an `Except` (a raise in CPython
unwinds but keeps mutations already performed on the object).
-/

namespace ArachnoNestor

/-! Configuration constants: `config/settings.py` DEFAULTS plus the
`CONFIG["motion"].get(...)` fallbacks in motion_controller.py (no
config.yaml is present, so the defaults apply). -/

def WINCH_IDS : List Nat := [1, 2, 3, 4]

def HALL_THRESHOLD : Int := 1500

def HALL_MAX : Int := 2800

def HALL_RPM_MAX : Int := 1500

def HALL_RPM_MIN : Int := 200

def STALE_TIMEOUT : ℚ := 3 / 2

def DEFAULT_DEVICE_ADDRESS : Nat := 1

/-! ## Safety monitor (backend/controller/motor/safety.py) -/

structure SafetyStatus where
  can_move : Bool
  reason : Option String
deriving Repr, DecidableEq

structure SafetyMonitor where
  hall_threshold : Int
  stale_timeout_s : ℚ
deriving Repr, DecidableEq

/-- `SafetyMonitor.evaluate` from safety.py.  The Python code calls
`time.time()` for the staleness check; that clock value is the explicit
`now` argument here. -/
def SafetyMonitor.evaluate (m : SafetyMonitor) (now : ℚ)
    (halls : List (Nat × Int)) (last_update : Option ℚ) : SafetyStatus :=
  match last_update with
  | none => ⟨false, some "no sensor update"⟩
  | some lu =>
    if m.stale_timeout_s < now - lu then ⟨false, some "stale sensor data"⟩
    else if halls.isEmpty then ⟨false, some "missing hall data"⟩
    else if halls.any (fun p => p.2 < m.hall_threshold) then
      ⟨false, some ("hall below " ++ toString m.hall_threshold)⟩
    else ⟨true, none⟩

/-- The safety monitor instance built by `MotionController.__init__`
(`SafetyMonitor(hall_threshold=HALL_THRESHOLD, stale_timeout_s=STALE_TIMEOUT)`). -/
def mcSafety : SafetyMonitor := ⟨HALL_THRESHOLD, STALE_TIMEOUT⟩

/-- Modelled from the spec: the bulleted decision cascade of spec section 4.3
("Pure decision function evaluate(halls, last_update) → SafetyStatus"),
written from the spec's words for comparison against the code's
`SafetyMonitor.evaluate`. -/
def evaluateSpecCascade (m : SafetyMonitor) (now : ℚ)
    (halls : List (Nat × Int)) (last_update : Option ℚ) : SafetyStatus :=
  if last_update = none then ⟨false, some "no sensor update"⟩
  else if m.stale_timeout_s < now - last_update.getD 0 then
    ⟨false, some "stale sensor data"⟩
  else if halls = [] then ⟨false, some "missing hall data"⟩
  else if halls.any (fun p => p.2 < m.hall_threshold) then
    ⟨false, some ("hall below " ++ toString m.hall_threshold)⟩
  else ⟨true, none⟩

/-! ## Hall → RPM map (`MotionController._hall_to_rpm`)

The Python function computes with IEEE-754 doubles.  A double result is
the exact rational result rounded to 53 significant bits, to nearest,
ties to even; `rne`/`flRound` below model exactly that (the values here
are far from double overflow and underflow, so the normal-range rule is
the whole story).  Integer operands (the subtractions, `span`, the RPM
constants) and the comparisons against float literals are exact. -/

/-- Round to nearest integer, ties to even. -/
def rne (x : ℚ) : ℤ :=
  let f := ⌊x⌋
  if x - f < 1/2 then f
  else if 1/2 < x - f then f + 1
  else if f % 2 = 0 then f else f + 1

/-- The IEEE-754 double nearest to an exact rational: round the mantissa
`|q| / 2^(⌊log2 |q|⌋ - 52)` (a value in `[2^52, 2^53)`) to an integer,
ties to even, and scale back. -/
def flRound (q : ℚ) : ℚ :=
  if q = 0 then 0
  else
    let s : ℚ := if q < 0 then -1 else 1
    let a : ℚ := |q|
    let e : ℤ := Int.log 2 a - 52
    s * ((rne (a / (2:ℚ) ^ e) : ℚ) * (2:ℚ) ^ e)

/-- `MotionController._hall_to_rpm`.  The int/int true division and the
float multiplication are each correctly rounded to double (`flRound`);
the final `int(rpm)` truncates toward zero, which is a floor here since
the value was clamped to at least `HALL_RPM_MIN > 0`. -/
def hallToRpm (hall_val : Int) : Int :=
  if HALL_MAX ≤ HALL_THRESHOLD then HALL_RPM_MIN
  else if hall_val < HALL_THRESHOLD then 0
  else
    let span : ℚ := (HALL_MAX : ℚ) - (HALL_THRESHOLD : ℚ)
    let frac : ℚ := flRound (((hall_val : ℚ) - (HALL_THRESHOLD : ℚ)) / span)
    let rpm1 : ℚ := flRound (frac * (HALL_RPM_MAX : ℚ))
    let rpm2 : ℚ := max 0 (min (HALL_RPM_MAX : ℚ) rpm1)
    let rpm3 : ℚ := max (HALL_RPM_MIN : ℚ) rpm2
    ⌊rpm3⌋

/-- Modelled from the spec: the hall→RPM map claimed in spec sections 4.5 and 8
— linear interpolation between `(hall_threshold, hall_rpm_min)` and
`(hall_max, hall_rpm_max)`, clamped to that RPM range (with the worked
example rounding to the nearest integer). -/
def hallToRpmLerpSpec (hall_val : Int) : Int :=
  let q : ℚ := (HALL_RPM_MIN : ℚ) +
    ((hall_val : ℚ) - (HALL_THRESHOLD : ℚ)) /
      ((HALL_MAX : ℚ) - (HALL_THRESHOLD : ℚ)) *
      ((HALL_RPM_MAX : ℚ) - (HALL_RPM_MIN : ℚ))
  max HALL_RPM_MIN (min HALL_RPM_MAX (round q))

/-! ## Motion controller state machine (motion_controller.py)

Shared supervisor state guarded by `self._lock`, with each locked code
region embedded as a pure state-transition function.  Hardware I/O is
represented by the list of `MotorOp`s a transition emits (the code applies
them outside the lock).  Operations that can `raise` return the pair of
the post-state and an `Except`: a Python exception unwinds but keeps the
mutations already performed.  Fields not needed by any claim
(`_poll_seq`, `_max_hall_seen`, power/bundle/imu caches, `last_command`,
EVB error counters) are not modelled. -/

/-- Python `str.upper()` over the ASCII strings used here. -/
def pyUpper (s : String) : String := ⟨s.data.map Char.toUpper⟩

/-- Python `str.lower()` over the ASCII strings used here. -/
def pyLower (s : String) : String := ⟨s.data.map Char.toLower⟩

def listPrefixB : List Char → List Char → Bool
  | [], _ => true
  | _ :: _, [] => false
  | a :: as, b :: bs => (a = b) && listPrefixB as bs

/-- Python `s.startswith(pre)`. -/
def strStartsWith (s pre : String) : Bool := listPrefixB pre.data s.data

structure MotorSt where
  running : Bool
  rpm : Int
  dir : Option String
deriving Repr, DecidableEq

inductive MotorOp where
  | stop (slave : Nat)
  | rpm (slave : Nat) (value : Int)
  | start (slave : Nat) (direction : String)
deriving Repr, DecidableEq

structure MCState where
  mode : String
  fault : Option String
  setupActivated : Bool
  lastHalls : List (Nat × Int)
  lastUpdate : Option ℚ
  jobGen : Nat
  jobActive : Bool
  jobLabel : Option String
  setupHallActive : Bool
  allowHallBelow : Bool
  motorState : List (Nat × MotorSt)
deriving Repr, DecidableEq

/-- `_build_motor_addr` with `modbus_addresses` unset: every winch maps to
the single default device address. -/
def motorAddr (_w : Nat) : Nat := DEFAULT_DEVICE_ADDRESS

def initMotorState : List (Nat × MotorSt) :=
  WINCH_IDS.map (fun w => (w, ⟨false, 0, none⟩))

/-- The supervisor state established by `MotionController.__init__`. -/
def initState : MCState :=
  { mode := "IDLE", fault := none, setupActivated := false,
    lastHalls := WINCH_IDS.map (fun w => (w, 0)), lastUpdate := none,
    jobGen := 0, jobActive := false, jobLabel := none,
    setupHallActive := false, allowHallBelow := false,
    motorState := initMotorState }

def lookupMotor (ms : List (Nat × MotorSt)) (w : Nat) : MotorSt :=
  (ms.lookup w).getD ⟨false, 0, none⟩

def updMotor (ms : List (Nat × MotorSt)) (w : Nat) (st : MotorSt) :
    List (Nat × MotorSt) :=
  ms.map fun p => if p.1 = w then (p.1, st) else p

/-- `_stop_motors_locked` / the `for mid in WINCH_IDS: st["running"] = False`
loops: clear the running flag of every per-motor cache entry. -/
def stopMotorsLocked (s : MCState) : MCState :=
  { s with motorState := s.motorState.map fun p => (p.1, { p.2 with running := false }) }

/-- Python `dict.update`: overwrite existing keys, append new ones. -/
def dictUpdate (d upd : List (Nat × Int)) : List (Nat × Int) :=
  upd.foldl
    (fun acc kv =>
      if (acc.lookup kv.1).isSome then
        acc.map (fun p => if p.1 = kv.1 then kv else p)
      else acc ++ [kv])
    d

/-- Python truthiness of `self.fault` (an optional string): `None` and the
empty string are falsy, any other string is truthy. -/
def faultTruthy : Option String → Bool
  | none => false
  | some f => if f = "" then false else true

/-- `MotionController.set_mode`.  The guard is Python's
`if self.fault and mode != "FAULT"` — a TRUTHINESS test on the reason, so
an empty-string reason does not block the transition. -/
def setMode (s : MCState) (mode : String) : MCState × Except String Unit :=
  let m := pyUpper mode
  if ¬ (m = "IDLE" ∨ m = "SETUP" ∨ m = "TEST" ∨ m = "FAULT") then
    (s, .error "invalid mode")
  else if faultTruthy s.fault ∧ m ≠ "FAULT" then
    (s, .error "in FAULT; clear_fault first")
  else
    let s1 := if m = "IDLE" then { s with setupActivated := false } else s
    let s2 := stopMotorsLocked s1
    let s3 := { s2 with mode := m }
    let s4 := if m = "SETUP" then { s3 with setupActivated := true } else s3
    (s4, .ok ())

/-- `MotionController.clear_fault`. -/
def clearFault (s : MCState) : MCState :=
  stopMotorsLocked { s with fault := none, mode := "IDLE", setupActivated := false }

/-- `MotionController.stop_all`: note the fault reason is latched here
(`self.fault = reason if self.fault is None else self.fault`). -/
def stopAll (s : MCState) (reason : String) (asFault : Bool) : MCState :=
  let s1 := stopMotorsLocked { s with jobGen := s.jobGen + 1 }
  if asFault then
    { s1 with fault := if s1.fault = none then some reason else s1.fault,
              mode := "FAULT" }
  else s1

/-- `MotionController.emergency_stop`. -/
def emergencyStop (s : MCState) (reason : String) : MCState :=
  stopAll s reason true

/-- `MotionController.cancel_job` (the job label is not cleared there). -/
def cancelJob (s : MCState) : MCState :=
  { stopMotorsLocked { s with jobGen := s.jobGen + 1 } with
      jobActive := false, setupHallActive := false, allowHallBelow := false }

/-- `MotionController._ensure_ready` (the dead-thread handle cleanup is a
no-op under the `jobActive` = "a job thread is alive" reading).  The
`if self.fault:` check is again a truthiness test. -/
def ensureReady (s : MCState) (required : String) : Except String Unit :=
  if faultTruthy s.fault then .error ("FAULT: " ++ s.fault.getD "")
  else if s.mode ≠ required then .error ("mode must be " ++ required)
  else if s.jobActive then .error "another job running"
  else .ok ()

/-- The synchronous, locked part of `_start_job` / `_start_hall_job`; the
spawned worker body is asynchronous and modelled by separate transitions. -/
def startJob (s : MCState) (label : String) : MCState :=
  { s with jobGen := s.jobGen + 1, jobActive := true, jobLabel := some label }

def DIRECTION_MAP : List (String × List Int) :=
  [("forward", [1, 1, -1, -1]), ("back", [-1, -1, 1, 1]),
   ("left", [-1, 1, -1, 1]), ("right", [1, -1, 1, -1]),
   ("up", [1, 1, 1, 1]), ("down", [-1, -1, -1, -1])]

/-- `MotionController.setup_jog` (guard part; the timed worker is async). -/
def setupJog (s : MCState) : MCState × Except String String :=
  match ensureReady s "SETUP" with
  | .error e => (s, .error e)
  | .ok _ => (startJob s "setup_jog", .ok "setup_jog")

/-- `MotionController.setup_hall_run`: note it calls `cancel_job` BEFORE the
`_ensure_ready` guard, so a guard failure still leaves the cancel applied. -/
def setupHallRun (s : MCState) (direction : String) : MCState × Except String String :=
  let d := pyLower direction
  if ¬ (d = "forward" ∨ d = "reverse") then (s, .error "invalid direction")
  else
    let s1 := cancelJob s
    match ensureReady s1 "SETUP" with
    | .error e => (s1, .error e)
    | .ok _ =>
      let s2 := { s1 with setupHallActive := true, allowHallBelow := true }
      (startJob s2 ("setup_hall_" ++ d), .ok ("setup_hall_" ++ d))

/-- `MotionController.test_up` (guard part). -/
def testUp (s : MCState) : MCState × Except String String :=
  match ensureReady s "TEST" with
  | .error e => (s, .error e)
  | .ok _ =>
    if ¬ s.setupActivated then (s, .error "setup must be activated before test")
    else (startJob s "test_up", .ok "test_up")

/-- `MotionController.test_direction` (guard part). -/
def testDirection (s : MCState) (now : ℚ) (name : String) :
    MCState × Except String String :=
  let n := pyLower name
  if (DIRECTION_MAP.lookup n).isNone then (s, .error "invalid direction")
  else
    match ensureReady s "TEST" with
    | .error e => (s, .error e)
    | .ok _ =>
      let status := mcSafety.evaluate now s.lastHalls s.lastUpdate
      if status.can_move then (startJob s ("dir_" ++ n), .ok ("dir_" ++ n))
      else (s, .error ("directional tests blocked: " ++ status.reason.getD "None"))

/-- The `status.reason and status.reason.startswith("hall below")` test. -/
def reasonIsHallBelow (st : SafetyStatus) : Bool :=
  match st.reason with
  | some r => strStartsWith r "hall below"
  | none => false

/-- The stop ops emitted for the currently running motors (in winch order). -/
def stopRunningOps (s : MCState) : List MotorOp :=
  (WINCH_IDS.filter (fun w => (lookupMotor s.motorState w).running)).map
    (fun w => .stop (motorAddr w))

/-- One iteration of the per-motor command-cache loop shared by
`_command_motors` (lines 543-558). -/
def cmdStep (absRpm : Int) (acc : List (Nat × MotorSt) × List MotorOp)
    (wd : Nat × Int) : List (Nat × MotorSt) × List MotorOp :=
  let ms := acc.1
  let ops := acc.2
  let motorId := wd.1
  let direction := wd.2
  let st := lookupMotor ms motorId
  let slave := motorAddr motorId
  if direction = 0 then
    if st.running then
      (updMotor ms motorId { st with running := false }, ops ++ [.stop slave])
    else (ms, ops)
  else
    let desiredDir := if direction > 0 then "F" else "R"
    let stepRpm :=
      if (¬ st.running) ∨ st.rpm ≠ absRpm then
        ({ st with rpm := absRpm }, ops ++ [.rpm slave absRpm])
      else (st, ops)
    let stepDir :=
      if (¬ stepRpm.1.running) ∨ stepRpm.1.dir ≠ some desiredDir then
        ({ stepRpm.1 with dir := some desiredDir }, stepRpm.2 ++ [.start slave desiredDir])
      else stepRpm
    (updMotor ms motorId { stepDir.1 with running := true }, stepDir.2)

/-- `MotionController._command_motors`.  Returns the post-state and the motor
ops applied after the lock is released.  Note the hall-below non-tolerant
branch stops motors WITHOUT setting `fault`/`mode`, while the other
unsafe branch overwrites `fault` unconditionally. -/
def commandMotors (s : MCState) (now : ℚ) (targets : List Int) (rpm : Int) :
    MCState × List MotorOp :=
  let absRpm := max 0 rpm
  let status := mcSafety.evaluate now s.lastHalls s.lastUpdate
  if ¬ status.can_move then
    if reasonIsHallBelow status then
      if s.allowHallBelow ∨ s.setupHallActive then
        let loop := (WINCH_IDS.zip targets).foldl (cmdStep absRpm) (s.motorState, [])
        ({ s with motorState := loop.1 }, loop.2)
      else
        (stopMotorsLocked s, stopRunningOps s)
    else
      (stopMotorsLocked { s with fault := status.reason, mode := "FAULT" },
       stopRunningOps s)
  else
    let loop := (WINCH_IDS.zip targets).foldl (cmdStep absRpm) (s.motorState, [])
    ({ s with motorState := loop.1 }, loop.2)

/-- The locked tail of one successful `_poll_loop` cycle (lines 698-739):
merge the fresh halls, advance `last_update`, evaluate safety and react.
The returned Bool is `should_hw_stop`. -/
def pollCycle (s : MCState) (now : ℚ) (halls : List (Nat × Int)) :
    MCState × Bool :=
  let s1 := { s with lastHalls := dictUpdate s.lastHalls halls, lastUpdate := some now }
  let status := mcSafety.evaluate now s1.lastHalls s1.lastUpdate
  if ¬ status.can_move then
    if reasonIsHallBelow status then
      if s1.allowHallBelow then (s1, false)
      else if s1.setupHallActive then (s1, false)
      else (stopMotorsLocked s1, true)
    else
      (stopMotorsLocked { s1 with fault := status.reason, mode := "FAULT" }, true)
  else (s1, false)

/-- The locked safety check of one `_run_hall_job` iteration (lines 483-495);
it too overwrites `fault` unconditionally on a non-hall-below violation. -/
def hallJobSafetyStep (s : MCState) (now : ℚ) : MCState × Bool :=
  let status := mcSafety.evaluate now s.lastHalls s.lastUpdate
  if ¬ status.can_move ∧ ¬ reasonIsHallBelow status then
    (stopMotorsLocked { s with fault := status.reason, mode := "FAULT" }, true)
  else (s, false)

/-- Folding a sequence of `set_mode` requests (each keeps its pre-state on
error, since `set_mode` raises before mutating). -/
def applySetModes (s : MCState) (ms : List String) : MCState :=
  ms.foldl (fun t m => (setMode t m).1) s

/-- Every cached motor entry has `running = false`. -/
def allStopped (s : MCState) : Bool := s.motorState.all fun p => !p.2.running

/-- A per-motor cache with all four winches running (as after a started job). -/
def c1Motors : List (Nat × MotorSt) :=
  [(1, ⟨true, 200, some "F"⟩), (2, ⟨true, 200, some "F"⟩),
   (3, ⟨true, 200, some "F"⟩), (4, ⟨true, 200, some "F"⟩)]

/-- Concrete snapshot: SETUP mode, fresh sensor data, every hall at
`HALL_THRESHOLD - 1 = 1499`, no hall-below-tolerant job
(`allowHallBelow = setupHallActive = false`), motors running. -/
def c1State : MCState :=
  { mode := "SETUP", fault := none, setupActivated := true,
    lastHalls := [(1, 1499), (2, 1499), (3, 1499), (4, 1499)], lastUpdate := some 0,
    jobGen := 1, jobActive := true, jobLabel := some "setup_jog",
    setupHallActive := false, allowHallBelow := false,
    motorState := c1Motors }

/-- Concrete snapshot: a fault reason "manual" already latched (as after
`emergency_stop("manual")`), healthy halls, `last_update = 0`. -/
def c4State : MCState :=
  { mode := "FAULT", fault := some "manual", setupActivated := false,
    lastHalls := [(1, 1600), (2, 1600), (3, 1600), (4, 1600)], lastUpdate := some 0,
    jobGen := 3, jobActive := false, jobLabel := none,
    setupHallActive := false, allowHallBelow := false,
    motorState := initMotorState }

/-- Initial state with a latched fault reason. -/
def faultedState : MCState :=
  { initState with fault := some "manual", mode := "FAULT" }

/-- TEST mode reached without passing through SETUP
(`setup_activated = false`), healthy fresh sensor data. -/
def testState : MCState :=
  { initState with
      mode := "TEST"
      lastHalls := [(1, 1600), (2, 1600), (3, 1600), (4, 1600)]
      lastUpdate := some 0 }

/-! ## Modbus RTU frame builders

`backend/controller/drivers/modbus_motor.py` (crc16_modbus and friends),
`backend/Testing_env/drivers/bld510b.py` (crcmod with polynomial 0x18005,
reversed, init 0xFFFF — the same CRC-16/MODBUS computation) and
`backend/controller/motor_controller.py` (`MotorController`).  Frames are
byte lists. -/

def crcShift : Nat → Nat → Nat
  | 0, crc => crc
  | n + 1, crc => crcShift n (if crc % 2 = 1 then (crc / 2) ^^^ 0xA001 else crc / 2)

def crc16_modbus (frame : List Nat) : Nat :=
  (frame.foldl (fun crc b => crcShift 8 (crc ^^^ b)) 0xFFFF) &&& 0xFFFF

/-- CRC appended low byte then high byte. -/
def calculate_crc (data : List Nat) : List Nat :=
  let v := crc16_modbus data
  [v &&& 0xFF, (v >>> 8) &&& 0xFF]

/-- Python `v.to_bytes(2, "big")` (all encoded values are below 2^16). -/
def toBytes2BE (v : Nat) : List Nat := [v / 256 % 256, v % 256]

/-- `send_modbus_command` (modbus_motor.py) = the frame layout also built by
bld510b.send_modbus_command and MotorController._build_frame:
`[slave, fc] ++ addr_be ++ (value_be | count_be) ++ crc`. -/
def send_modbus_command (slave fc addr : Nat) (value count : Option Nat) :
    List Nat :=
  let frame := [slave, fc] ++ toBytes2BE addr
  let frame :=
    if fc = 0x06 then
      match value with
      | some v => frame ++ toBytes2BE v
      | none => frame
    else if fc = 0x03 then
      match count with
      | some c => frame ++ toBytes2BE c
      | none => frame
    else frame
  frame ++ calculate_crc frame

/-- modbus_motor.write_rpm: clamp to [0, 4000], byte-swap, write 0x8005. -/
def mm_write_rpm (slave : Nat) (rpm : Int) : List Nat :=
  let r := (max 0 (min 4000 rpm)).toNat
  let raw := ((r &&& 0xFF) <<< 8) ||| ((r >>> 8) &&& 0xFF)
  send_modbus_command slave 0x06 0x8005 (some raw) none

/-- modbus_motor.start_motor. -/
def mm_start_motor (slave : Nat) (forward : Bool) : List Nat :=
  send_modbus_command slave 0x06 0x8000 (some (if forward then 0x0902 else 0x0B02)) none

/-- modbus_motor.stop_motor. -/
def mm_stop_motor (slave : Nat) (brake : Bool) : List Nat :=
  send_modbus_command slave 0x06 0x8000 (some (if brake then 0x0D02 else 0x0802)) none

/-- bld510b.send_modbus_command: same frame layout, fixed DEVICE_ADDRESS. -/
def bld_send_modbus_command (fc addr : Nat) (value count : Option Nat) : List Nat :=
  send_modbus_command DEFAULT_DEVICE_ADDRESS fc addr value count

/-- bld510b.start_motorFR. -/
def bld_start_motorFR (fr : String) : List Nat :=
  if fr = "F" then bld_send_modbus_command 0x06 0x8000 (some 0x0902) none
  else bld_send_modbus_command 0x06 0x8000 (some 0x0B02) none

/-- bld510b.stop_motor_natural. -/
def bld_stop_motor_natural : List Nat :=
  bld_send_modbus_command 0x06 0x8000 (some 0x0802) none

/-- bld510b.stop_motor_braking. -/
def bld_stop_motor_braking : List Nat :=
  bld_send_modbus_command 0x06 0x8000 (some 0x0D02) none

/-- bld510b.write_rpm: unlike modbus_motor.write_rpm this REJECTS an
out-of-range speed (`if speed < 0 or speed > 4000: log.error(...); return`)
instead of clamping; the rejected call sends nothing, modelled as `none`. -/
def bld_write_rpm (speed : Int) : Option (List Nat) :=
  if speed < 0 ∨ speed > 4000 then none
  else
    let speed_value := speed.toNat
    let speed_low_byte := speed_value &&& 0xFF
    let speed_high_byte := (speed_value >>> 8) &&& 0xFF
    let speed_combined := (speed_low_byte <<< 8) ||| speed_high_byte
    some (bld_send_modbus_command 0x06 0x8005 (some speed_combined) none)

/-- MotorController._build_frame (motor_controller.py): same layout. -/
def mc_build_frame (slave fc reg : Nat) (value count : Option Nat) : List Nat :=
  send_modbus_command slave fc reg value count

/-- MotorController.write_rpm: clamps like modbus_motor (the high byte is
unmasked in the source; the clamped value is below 2^16 so it is equal). -/
def mc_write_rpm (slave : Nat) (rpm : Int) : List Nat :=
  let r := (max 0 (min 4000 rpm)).toNat
  let raw := ((r &&& 0xFF) <<< 8) ||| (r >>> 8)
  mc_build_frame slave 0x06 0x8005 (some raw) none

/-- MotorController.start. -/
def mc_start (slave : Nat) (forward : Bool) : List Nat :=
  mc_build_frame slave 0x06 0x8000 (some (if forward then 0x0902 else 0x0B02)) none

/-- MotorController.stop: natural stop is 0x0A02 here (NOT 0x0802). -/
def mc_stop (slave : Nat) (brake : Bool) : List Nat :=
  mc_build_frame slave 0x06 0x8000 (some (if brake then 0x0D02 else 0x0A02)) none

/-! ## EVB response payload parsers (backend/controller/tcp/evb.py)

Each getter checks the response type, then gates the payload length with
`_require_len(type, payload, EXPECTED_LENGTHS[type], legacy?)` and unpacks
little-endian fields.  The payload-level behaviour is embedded here (the
error message renders numbers in decimal where the Python uses hex). -/

def isOkE {α : Type} : Except String α → Bool
  | .ok _ => true
  | .error _ => false

/-- `_require_len`. -/
def require_len (resp_type : Nat) (payload : List Nat) (expected : Nat)
    (alt_expected : Option Nat) : Except String Unit :=
  if payload.length = expected then .ok ()
  else
    match alt_expected with
    | some alt =>
      if payload.length = alt then .ok ()
      else .error ("bad response type=" ++ toString resp_type ++ " len=" ++
        toString payload.length ++ " expected=" ++ toString expected ++
        " or " ++ toString alt)
    | none =>
      .error ("bad response type=" ++ toString resp_type ++ " len=" ++
        toString payload.length ++ " expected=" ++ toString expected)

def byteAt (p : List Nat) (i : Nat) : Nat := p.getD i 0

def leU16 (b0 b1 : Nat) : Nat := b0 + 256 * b1

def leU32 (b0 b1 b2 b3 : Nat) : Nat :=
  b0 + 256 * b1 + 65536 * b2 + 16777216 * b3

def leI16 (b0 b1 : Nat) : Int :=
  let v := leU16 b0 b1
  if v < 32768 then (v : Int) else (v : Int) - 65536

def leI32 (b0 b1 b2 b3 : Nat) : Int :=
  let v := leU32 b0 b1 b2 b3
  if v < 2147483648 then (v : Int) else (v : Int) - 4294967296

def leU16At (p : List Nat) (i : Nat) : Nat := leU16 (byteAt p i) (byteAt p (i + 1))

def leU32At (p : List Nat) (i : Nat) : Nat :=
  leU32 (byteAt p i) (byteAt p (i + 1)) (byteAt p (i + 2)) (byteAt p (i + 3))

def leI16At (p : List Nat) (i : Nat) : Int := leI16 (byteAt p i) (byteAt p (i + 1))

def leI32At (p : List Nat) (i : Nat) : Int :=
  leI32 (byteAt p i) (byteAt p (i + 1)) (byteAt p (i + 2)) (byteAt p (i + 3))

/-- get_snapshot payload handling: current 11 B or legacy 7 B. -/
def parse_snapshot (payload : List Nat) : Except String (Nat × Nat × Nat) :=
  match require_len 0x04 payload 11 (some 7) with
  | .error e => .error e
  | .ok _ => .ok (byteAt payload 0, leU32At payload 1, leU16At payload 5)

/-- get_delta payload handling: current 9 B or legacy 5 B. -/
def parse_delta (payload : List Nat) : Except String (Nat × Int) :=
  match require_len 0x05 payload 9 (some 5) with
  | .error e => .error e
  | .ok _ => .ok (byteAt payload 0, leI32At payload 1)

structure DistanceData where
  ok : Nat
  dist_mm : Nat
  strength : Nat
  temp_raw : Nat
  age_ms : Nat
  cache_age_ms : Option Nat
deriving Repr, DecidableEq

/-- get_distance payload handling: current 13 B or legacy 9 B. -/
def parse_distance (payload : List Nat) : Except String DistanceData :=
  match require_len 0x07 payload 13 (some 9) with
  | .error e => .error e
  | .ok _ =>
    .ok { ok := byteAt payload 0, dist_mm := leU16At payload 1,
          strength := leU16At payload 3, temp_raw := leU16At payload 5,
          age_ms := leU16At payload 7,
          cache_age_ms := if 13 ≤ payload.length then some (leU32At payload 9) else none }

structure PowerData where
  winch : Nat
  bus_mv : Nat
  current_ma : Int
  power_mw : Nat
  cache_age_ms : Nat
deriving Repr, DecidableEq

/-- get_power payload handling: `_require_len` is called WITHOUT a legacy
alternative, so only the current 13 B length is accepted. -/
def parse_power (payload : List Nat) : Except String PowerData :=
  match require_len 0x08 payload 13 none with
  | .error e => .error e
  | .ok _ =>
    .ok { winch := byteAt payload 0, bus_mv := leU16At payload 1,
          current_ma := leI16At payload 3, power_mw := leU32At payload 5,
          cache_age_ms := leU32At payload 9 }

structure BundleData where
  winch : Nat
  flags : Nat
  total_count : Int
  delta_count : Int
  hall_raw : Nat
  dist_mm : Nat
  strength : Nat
  temp_raw : Nat
  age_ms : Nat
  bus_mv : Nat
  current_ma : Int
  power_mw : Nat
  cache_age_ms : Option Nat
deriving Repr, DecidableEq

/-- get_bundle payload handling: current 32 B or legacy 28 B. -/
def parse_bundle (payload : List Nat) : Except String BundleData :=
  match require_len 0x09 payload 32 (some 28) with
  | .error e => .error e
  | .ok _ =>
    .ok { winch := byteAt payload 0, flags := byteAt payload 1,
          total_count := leI32At payload 2, delta_count := leI32At payload 6,
          hall_raw := leU16At payload 10, dist_mm := leU16At payload 12,
          strength := leU16At payload 14, temp_raw := leU16At payload 16,
          age_ms := leU16At payload 18, bus_mv := leU16At payload 20,
          current_ma := leI16At payload 22, power_mw := leU32At payload 24,
          cache_age_ms := if 32 ≤ payload.length then some (leU32At payload 28) else none }

structure ImuData where
  words : List Nat
  cache_age_ms : Option Nat
deriving Repr, DecidableEq

/-- get_imu payload handling: current 44 B or legacy 40 B.  The ten f32
values are kept as their raw little-endian 32-bit words (float semantics is
outside the embedding; the length acceptance is what the claims concern). -/
def parse_imu (payload : List Nat) : Except String ImuData :=
  match require_len 0x0A payload 44 (some 40) with
  | .error e => .error e
  | .ok _ =>
    .ok { words := (List.range 10).map (fun i => leU32At payload (4 * i)),
          cache_age_ms := if 44 ≤ payload.length then some (leU32At payload 40) else none }

/-! ## Theorems -/

/-! ### Shared helper lemmas: the correctly-rounded double model -/

theorem rne_bounds (x : ℚ) : x - 1/2 ≤ (rne x : ℚ) ∧ (rne x : ℚ) ≤ x + 1/2 := by
  unfold rne
  have hf1 : (⌊x⌋ : ℚ) ≤ x := Int.floor_le x
  have hf2 : x < ⌊x⌋ + 1 := Int.lt_floor_add_one x
  by_cases h1 : x - ⌊x⌋ < 1/2
  · simp only [if_pos h1]
    constructor <;> linarith
  · by_cases h2 : 1/2 < x - ⌊x⌋
    · simp only [if_neg h1, if_pos h2]
      constructor <;> push_cast <;> linarith
    · have he : x - ⌊x⌋ = 1/2 := le_antisymm (not_lt.mp h2) (not_lt.mp h1)
      simp only [if_neg h1, if_neg h2]
      by_cases h3 : ⌊x⌋ % 2 = 0
      · simp only [if_pos h3]
        constructor <;> linarith
      · simp only [if_neg h3]
        constructor <;> push_cast <;> linarith

theorem int_log_eq {a : ℚ} (ha : 0 < a) {z : ℤ} (h1 : (2:ℚ) ^ z ≤ a)
    (h2 : a < (2:ℚ) ^ (z + 1)) : Int.log 2 a = z := by
  have l1 : ((2:ℕ):ℚ) ^ Int.log 2 a ≤ a := Int.zpow_log_le_self one_lt_two ha
  have l2 : a < ((2:ℕ):ℚ) ^ (Int.log 2 a + 1) := Int.lt_zpow_succ_log_self one_lt_two a
  push_cast at l1 l2
  rcases lt_trichotomy (Int.log 2 a) z with h | h | h
  · exfalso
    have : ((2:ℚ)) ^ (Int.log 2 a + 1) ≤ (2:ℚ) ^ z := zpow_le_zpow_right₀ one_le_two (by omega)
    linarith
  · exact h
  · exfalso
    have : ((2:ℚ)) ^ (z + 1) ≤ (2:ℚ) ^ (Int.log 2 a) := zpow_le_zpow_right₀ one_le_two (by omega)
    linarith

theorem flRound_eval {q : ℚ} {z N : ℤ} (hq : 0 < q)
    (h1 : (2:ℚ) ^ z ≤ q) (h2 : q < (2:ℚ) ^ (z + 1))
    (hN : rne (q / (2:ℚ) ^ (z - 52)) = N) :
    flRound q = (N : ℚ) * (2:ℚ) ^ (z - 52) := by
  unfold flRound
  rw [if_neg (ne_of_gt hq)]
  simp only [if_neg (not_lt.mpr hq.le), abs_of_pos hq, int_log_eq hq h1 h2, hN, one_mul]

/-- One correctly-rounded operation loses at most a relative `2^-53`. -/
theorem flRound_ge {q : ℚ} (hq : 0 < q) : q - q / 2 ^ 53 ≤ flRound q := by
  unfold flRound
  rw [if_neg (ne_of_gt hq)]
  simp only [if_neg (not_lt.mpr hq.le), abs_of_pos hq, one_mul]
  set e : ℤ := Int.log 2 q - 52 with he
  have hpow : (0:ℚ) < (2:ℚ) ^ e := zpow_pos (by norm_num) e
  have hrne := (rne_bounds (q / (2:ℚ) ^ e)).1
  have hmul : (q / (2:ℚ)^e - 1/2) * (2:ℚ)^e ≤ (rne (q / (2:ℚ)^e) : ℚ) * (2:ℚ)^e :=
    mul_le_mul_of_nonneg_right hrne hpow.le
  have hsimp : (q / (2:ℚ)^e - 1/2) * (2:ℚ)^e = q - (2:ℚ)^e / 2 := by
    field_simp
    ring
  have hlog : (2:ℚ) ^ (Int.log 2 q) ≤ q := by
    have := Int.zpow_log_le_self (b := 2) one_lt_two hq
    push_cast at this
    exact this
  have hee : (2:ℚ) ^ e / 2 ≤ q / 2 ^ 53 := by
    have h1 : (2:ℚ) ^ e / 2 = (2:ℚ) ^ (e - 1) := by
      rw [zpow_sub_one₀ (two_ne_zero : (2:ℚ) ≠ 0), div_eq_mul_inv]
    have h2 : e - 1 = Int.log 2 q - 53 := by omega
    have h3 : (2:ℚ) ^ (Int.log 2 q - 53) = (2:ℚ) ^ (Int.log 2 q) / (2:ℚ) ^ (53:ℤ) :=
      zpow_sub₀ (two_ne_zero : (2:ℚ) ≠ 0) _ _
    rw [h1, h2, h3, show ((2:ℚ) ^ (53:ℤ)) = ((2:ℚ) ^ (53:ℕ)) by norm_num]
    exact (div_le_div_iff_of_pos_right (by positivity)).mpr hlog
  linarith [hmul, hsimp]

theorem hallToRpm_eval_2000 : hallToRpm 2000 = 576 := by
  have hf1 : flRound ((5:ℚ)/13) = (6928614811339225 : ℚ) * (2:ℚ) ^ ((-2:ℤ) - 52) :=
    flRound_eval (by norm_num) (by norm_num) (by norm_num) (by norm_num [rne])
  have hf2 : flRound ((6928614811339225 : ℚ) * (2:ℚ) ^ ((-2:ℤ) - 52) * 1500) =
      (5074669051273846 : ℚ) * (2:ℚ) ^ ((9:ℤ) - 52) :=
    flRound_eval (by norm_num) (by norm_num) (by norm_num) (by norm_num [rne])
  unfold hallToRpm
  rw [if_neg (by norm_num [HALL_MAX, HALL_THRESHOLD]), if_neg (by norm_num [HALL_THRESHOLD])]
  simp only [HALL_MAX, HALL_THRESHOLD, HALL_RPM_MAX, HALL_RPM_MIN]
  push_cast
  rw [show ((2000:ℚ) - 1500) / ((2800:ℚ) - 1500) = 5/13 by norm_num, hf1, hf2]
  norm_num

/-- The program's value at hall = 1877: double rounding makes it 434, one
below the exact proportional value 435. -/
theorem hallToRpm_eval_1877 : hallToRpm 1877 = 434 := by
  have hf1 : flRound ((29:ℚ)/100) = (5224175567749775 : ℚ) * (2:ℚ) ^ ((-2:ℤ) - 52) :=
    flRound_eval (by norm_num) (by norm_num) (by norm_num) (by norm_num [rne])
  have hf2 : flRound ((5224175567749775 : ℚ) * (2:ℚ) ^ ((-2:ℤ) - 52) * 1500) =
      (7652600929320959 : ℚ) * (2:ℚ) ^ ((8:ℤ) - 52) :=
    flRound_eval (by norm_num) (by norm_num) (by norm_num) (by norm_num [rne])
  unfold hallToRpm
  rw [if_neg (by norm_num [HALL_MAX, HALL_THRESHOLD]), if_neg (by norm_num [HALL_THRESHOLD])]
  simp only [HALL_MAX, HALL_THRESHOLD, HALL_RPM_MAX, HALL_RPM_MIN]
  push_cast
  rw [show ((1877:ℚ) - 1500) / ((2800:ℚ) - 1500) = 29/100 by norm_num, hf1, hf2]
  norm_num

theorem hallToRpm_eval_1500 : hallToRpm 1500 = 200 := by
  unfold hallToRpm
  rw [if_neg (by norm_num [HALL_MAX, HALL_THRESHOLD]), if_neg (by norm_num [HALL_THRESHOLD])]
  simp only [HALL_MAX, HALL_THRESHOLD, HALL_RPM_MAX, HALL_RPM_MIN]
  push_cast
  rw [show ((1500:ℚ) - 1500) / ((2800:ℚ) - 1500) = 0 by norm_num]
  rw [show flRound 0 = 0 from by norm_num [flRound]]
  rw [show (0:ℚ) * 1500 = 0 by norm_num]
  rw [show flRound 0 = 0 from by norm_num [flRound]]
  norm_num

theorem hallToRpm_eval_2800 : hallToRpm 2800 = 1500 := by
  have hf1 : flRound (1:ℚ) = ((4503599627370496 : ℚ)) * (2:ℚ) ^ ((0:ℤ) - 52) :=
    flRound_eval (by norm_num) (by norm_num) (by norm_num) (by norm_num [rne])
  have hf2 : flRound ((4503599627370496 : ℚ) * (2:ℚ) ^ ((0:ℤ) - 52) * 1500) =
      (6597069766656000 : ℚ) * (2:ℚ) ^ ((10:ℤ) - 52) :=
    flRound_eval (by norm_num) (by norm_num) (by norm_num) (by norm_num [rne])
  unfold hallToRpm
  rw [if_neg (by norm_num [HALL_MAX, HALL_THRESHOLD]), if_neg (by norm_num [HALL_THRESHOLD])]
  simp only [HALL_MAX, HALL_THRESHOLD, HALL_RPM_MAX, HALL_RPM_MIN]
  push_cast
  rw [show ((2800:ℚ) - 1500) / ((2800:ℚ) - 1500) = 1 by norm_num, hf1, hf2]
  norm_num

theorem hallToRpm_ge_max (h : Int) (hh : HALL_MAX ≤ h) : hallToRpm h = 1500 := by
  rcases eq_or_lt_of_le hh with heq | hlt
  · rw [← heq]
    exact hallToRpm_eval_2800
  · unfold hallToRpm
    rw [if_neg (by norm_num [HALL_MAX, HALL_THRESHOLD]),
        if_neg (by simp [HALL_MAX, HALL_THRESHOLD] at hlt ⊢; omega)]
    simp only [HALL_MAX, HALL_THRESHOLD, HALL_RPM_MAX, HALL_RPM_MIN]
    push_cast
    have hcast : (2801 : ℚ) ≤ (h : ℚ) := by
      simp [HALL_MAX] at hlt
      exact_mod_cast (by omega : (2801:Int) ≤ h)
    set q1 : ℚ := ((h:ℚ) - 1500) / (2800 - 1500) with hq1def
    have hq1ge : (1301/1300 : ℚ) ≤ q1 := by
      rw [hq1def]
      rw [div_le_div_iff₀ (by norm_num) (by norm_num)]
      linarith
    have hq1pos : 0 < q1 := lt_of_lt_of_le (by norm_num) hq1ge
    have hf1 := flRound_ge hq1pos
    have hf1low : (1301/1300 : ℚ) * (1 - 1/2^53) ≤ flRound q1 := by
      have h1 : q1 * (1 - 1/2^53) = q1 - q1/2^53 := by ring
      have h2 : (1301/1300 : ℚ) * (1 - 1/2^53) ≤ q1 * (1 - 1/2^53) :=
        mul_le_mul_of_nonneg_right hq1ge (by norm_num)
      linarith
    have hf1pos : 0 < flRound q1 := lt_of_lt_of_le (by norm_num) hf1low
    have hq2pos : 0 < flRound q1 * 1500 := by positivity
    have hf2 := flRound_ge hq2pos
    have hf2low : (1500:ℚ) ≤ flRound (flRound q1 * 1500) := by
      have h1 : flRound q1 * 1500 * (1 - 1/2^53) = flRound q1 * 1500 - flRound q1 * 1500 / 2^53 := by
        ring
      have h2 : (1301/1300 : ℚ) * (1 - 1/2^53) * 1500 * (1 - 1/2^53) ≤
          flRound q1 * 1500 * (1 - 1/2^53) := by
        have := mul_le_mul_of_nonneg_right hf1low (show (0:ℚ) ≤ 1500 by norm_num)
        exact mul_le_mul_of_nonneg_right this (by norm_num)
      have h3 : (1500:ℚ) ≤ (1301/1300 : ℚ) * (1 - 1/2^53) * 1500 * (1 - 1/2^53) := by
        norm_num
      linarith
    rw [min_eq_left hf2low]
    norm_num

theorem hallToRpm_range (h : Int) (hge : HALL_THRESHOLD ≤ h) :
    200 ≤ hallToRpm h ∧ hallToRpm h ≤ 1500 := by
  unfold hallToRpm
  rw [if_neg (by norm_num [HALL_MAX, HALL_THRESHOLD]),
      if_neg (by simp [HALL_THRESHOLD] at hge ⊢; omega)]
  simp only [HALL_MAX, HALL_THRESHOLD, HALL_RPM_MAX, HALL_RPM_MIN]
  push_cast
  constructor
  · apply Int.le_floor.mpr
    push_cast
    exact le_max_left _ _
  · have hle : (200:ℚ) ⊔ (0 ⊔ (1500:ℚ) ⊓ flRound (flRound (((h:ℚ) - 1500) / (2800 - 1500)) * 1500)) ≤ 1500 := by
      apply max_le (by norm_num)
      apply max_le (by norm_num)
      exact min_le_left _ _
    calc ⌊(200:ℚ) ⊔ (0 ⊔ (1500:ℚ) ⊓ flRound (flRound (((h:ℚ) - 1500) / (2800 - 1500)) * 1500))⌋
        ≤ ⌊(1500:ℚ)⌋ := Int.floor_le_floor hle
    _ = 1500 := by norm_num

/-! ### C3 -/

/-- C3: for every hall map and every last_update value (and every clock
value `now`), the safety monitor's `evaluate` returns exactly the
five-case cascade stated by the spec, checks applied in that order: no
update → stale → empty halls → hall below threshold → ok. -/
theorem c3_safety_evaluate_matches_spec (m : SafetyMonitor) (now : ℚ)
    (halls : List (Nat × Int)) (lu : Option ℚ) :
    m.evaluate now halls lu = evaluateSpecCascade m now halls lu := by
  cases lu with
  | none => simp [SafetyMonitor.evaluate, evaluateSpecCascade]
  | some t => simp [SafetyMonitor.evaluate, evaluateSpecCascade, List.isEmpty_iff]

/-! ### C2 -/

/-- C2 counterexample: at hall = 2000 the code's `_hall_to_rpm` yields 576,
while the spec's claimed interpolation between (1500, 200) and (2800, 1500)
yields 700; 576 is not within ±1 of 700, refuting the claimed formula and
the claimed value at h = 2000. -/
theorem c2_hall_to_rpm_midpoint_counterexample :
    hallToRpm 2000 = 576 ∧ hallToRpmLerpSpec 2000 = 700 ∧
    ¬ (699 ≤ hallToRpm 2000 ∧ hallToRpm 2000 ≤ 701) := by
  refine ⟨hallToRpm_eval_2000, ?_, ?_⟩
  · norm_num [hallToRpmLerpSpec, HALL_MAX, HALL_THRESHOLD, HALL_RPM_MAX, HALL_RPM_MIN]
  · rw [hallToRpm_eval_2000]
    norm_num

/-- C2 (amended): `_hall_to_rpm` is the IEEE-double evaluation of
`(hall − hall_threshold)/span × hall_rpm_max`, truncated and clamped to
[hall_rpm_min, hall_rpm_max] — interpolation anchored at
(hall_threshold, 0), not (hall_threshold, hall_rpm_min).  The claimed
boundary values hold (1500 → 200, 2800 → 1500, every hall above hall_max
→ 1500, and the result always lies in [200, 1500]); but hall = 2000
yields 576, not 700 ± 1, and double rounding can fall one below the exact
proportional value: hall = 1877 yields 434 where the exact
(1877 − 1500)·1500/1300 is 435. -/
theorem c2_hall_to_rpm_amended :
    hallToRpm 1500 = 200 ∧ hallToRpm 2000 = 576 ∧ hallToRpm 2800 = 1500 ∧
    (∀ hall : Int, HALL_MAX ≤ hall → hallToRpm hall = 1500) ∧
    (∀ hall : Int, HALL_THRESHOLD ≤ hall →
      200 ≤ hallToRpm hall ∧ hallToRpm hall ≤ 1500) ∧
    hallToRpm 1877 = 434 ∧ (1877 - 1500) * 1500 / 1300 = (435 : Int) :=
  ⟨hallToRpm_eval_1500, hallToRpm_eval_2000, hallToRpm_eval_2800,
   hallToRpm_ge_max, hallToRpm_range, hallToRpm_eval_1877, by decide⟩

/-- C2 witness: the amended theorem's quantified parts applied at
hall = 3000 and hall = 1600. -/
theorem c2_hall_to_rpm_amended_witness :
    hallToRpm 3000 = 1500 ∧ (200 ≤ hallToRpm 1600 ∧ hallToRpm 1600 ≤ 1500) :=
  ⟨c2_hall_to_rpm_amended.2.2.2.1 3000 (by norm_num [HALL_MAX]),
   c2_hall_to_rpm_amended.2.2.2.2.1 1600 (by norm_num [HALL_THRESHOLD])⟩

/-! ### C7 -/

theorem byteswap_eq (r : Nat) (hr : r < 65536) :
    ((r &&& 255) <<< 8) ||| ((r >>> 8) &&& 255) = 256 * (r % 256) + r / 256 := by
  have h255 : (255 : Nat) = 2 ^ 8 - 1 := by norm_num
  rw [h255, Nat.and_pow_two_sub_one_eq_mod, Nat.and_pow_two_sub_one_eq_mod,
      Nat.shiftRight_eq_div_pow, Nat.shiftLeft_eq]
  have hd : r / 2 ^ 8 % 2 ^ 8 = r / 2 ^ 8 := Nat.mod_eq_of_lt (by omega)
  rw [hd, Nat.mul_comm (r % 2 ^ 8) (2 ^ 8),
      ← Nat.mul_add_lt_is_or (by omega) (r % 2 ^ 8)]
  norm_num

/-- C7 (amended): the `modbus_motor.write_rpm` the supervisor's drivers
package provides clamps every rpm to [0, 4000] and then writes the clamped
value byte-swapped (low byte first on the wire) to register 0x8005 =
(0x80, 0x05), function code 6 — an out-of-range rpm is written as the
nearest bound.  The `bld510b.write_rpm` variant cited by the claim instead
rejects out-of-range values (see the counterexample). -/
theorem c7_write_rpm_amended :
    (∀ (slave : Nat) (rpm : Int),
      (mm_write_rpm slave rpm).take 6 =
        [slave, 6, 128, 5, ((max 0 (min 4000 rpm)).toNat) % 256,
         ((max 0 (min 4000 rpm)).toNat) / 256]) ∧
    (∀ (slave : Nat) (rpm : Int), 4000 < rpm →
      mm_write_rpm slave rpm = mm_write_rpm slave 4000) ∧
    (∀ (slave : Nat) (rpm : Int), rpm < 0 →
      mm_write_rpm slave rpm = mm_write_rpm slave 0) := by
  refine ⟨?_, ?_, ?_⟩
  · intro slave rpm
    set r := (max 0 (min 4000 rpm)).toNat with hrdef
    have hr : r ≤ 4000 := by
      rw [hrdef, Int.toNat_le]
      exact max_le (by norm_num) (min_le_left _ _)
    have hbs : ((r &&& 255) <<< 8) ||| ((r >>> 8) &&& 255) = 256 * (r % 256) + r / 256 :=
      byteswap_eq r (by omega)
    have key1 : ∀ a b : Nat, a < 256 → b ≤ 15 → (256 * a + b) / 256 % 256 = a :=
      fun a b ha hb => by omega
    have key2 : ∀ a b : Nat, a < 256 → b ≤ 15 → (256 * a + b) % 256 = b :=
      fun a b ha hb => by omega
    have h1 := key1 (r % 256) (r / 256) (by omega) (by omega)
    have h2 := key2 (r % 256) (r / 256) (by omega) (by omega)
    simp only [mm_write_rpm, send_modbus_command, toBytes2BE, ← hrdef]
    rw [hbs]
    norm_num [h1, h2, List.take_succ_cons]
  · intro slave rpm h
    unfold mm_write_rpm
    rw [show max 0 (min 4000 rpm) = max 0 (min 4000 (4000 : Int)) by omega]
  · intro slave rpm h
    unfold mm_write_rpm
    rw [show max 0 (min 4000 rpm) = max 0 (min 4000 (0 : Int)) by omega]

/-- C7 counterexample: the cited `bld510b.write_rpm` drops an out-of-range
rpm (4001 produces no write at all) instead of clamping it to the nearest
bound, while an in-range rpm is written. -/
theorem c7_write_rpm_counterexample :
    bld_write_rpm 4001 = none ∧ (bld_write_rpm 4000).isSome = true := by
  refine ⟨?_, ?_⟩
  · norm_num [bld_write_rpm]
  · decide

/-- C7 witness: the amended theorem applied at rpm = 700, 4001 and −5. -/
theorem c7_write_rpm_amended_witness :
    (mm_write_rpm 1 700).take 6 = [1, 6, 128, 5, 700 % 256, 700 / 256] ∧
    mm_write_rpm 1 4001 = mm_write_rpm 1 4000 ∧
    mm_write_rpm 1 (-5) = mm_write_rpm 1 0 := by
  refine ⟨?_, c7_write_rpm_amended.2.1 1 4001 (by norm_num),
    c7_write_rpm_amended.2.2 1 (-5) (by norm_num)⟩
  have := c7_write_rpm_amended.1 1 700
  norm_num at this ⊢
  exact this

/-! ### C8 -/

/-- C8 (amended): the stop/start command words written to register 0x8000
are 0x0802 (natural stop), 0x0D02 (brake stop), 0x0902 (forward) and
0x0B02 (reverse) in `modbus_motor` and in `bld510b` — the drivers on the
supervisor's import path — and `MotorController.start` agrees; but
`MotorController.stop` writes 0x0A02 for a natural stop (see the
counterexample), so not every cited implementation uses 0x0802. -/
theorem c8_stop_codes_amended : ∀ slave : Nat,
    (mm_stop_motor slave false).take 6 = [slave, 6, 128, 0, 8, 2] ∧
    (mm_stop_motor slave true).take 6 = [slave, 6, 128, 0, 13, 2] ∧
    (mm_start_motor slave true).take 6 = [slave, 6, 128, 0, 9, 2] ∧
    (mm_start_motor slave false).take 6 = [slave, 6, 128, 0, 11, 2] ∧
    bld_stop_motor_natural.take 6 = [1, 6, 128, 0, 8, 2] ∧
    bld_stop_motor_braking.take 6 = [1, 6, 128, 0, 13, 2] ∧
    (bld_start_motorFR "F").take 6 = [1, 6, 128, 0, 9, 2] ∧
    (bld_start_motorFR "R").take 6 = [1, 6, 128, 0, 11, 2] ∧
    (mc_start slave true).take 6 = [slave, 6, 128, 0, 9, 2] ∧
    (mc_start slave false).take 6 = [slave, 6, 128, 0, 11, 2] := by
  intro slave
  refine ⟨?_, ?_, ?_, ?_, by decide, by decide, by decide, by decide, ?_, ?_⟩ <;>
    norm_num [mm_stop_motor, mm_start_motor, mc_start, mc_build_frame,
      send_modbus_command, toBytes2BE, List.take_succ_cons]

/-- C8 counterexample: `MotorController.stop` (motor_controller.py, a cited
source of the claim) writes 0x0A02 = (0x0A, 0x02) to register 0x8000 for a
natural stop, not the claimed 0x0802. -/
theorem c8_stop_codes_counterexample :
    (mc_stop 1 false).take 6 = [1, 6, 128, 0, 10, 2] ∧
    ([1, 6, 128, 0, 10, 2] : List Nat) ≠ [1, 6, 128, 0, 8, 2] := by
  exact ⟨by decide, by decide⟩

/-! ### C9 -/

/-- C9 (amended): SNAPSHOT, DELTA, DISTANCE, BUNDLE and IMU payloads parse
at both the current and the legacy length and raise a protocol error at
every other length; POWER is the exception — `get_power` passes no legacy
alternative to `_require_len`, so only the current 13-byte form parses and
the 9-byte legacy form raises. -/
theorem c9_parser_lengths_amended :
    (∀ p : List Nat, p.length = 11 ∨ p.length = 7 → isOkE (parse_snapshot p) = true) ∧
    (∀ p : List Nat, p.length ≠ 11 → p.length ≠ 7 → isOkE (parse_snapshot p) = false) ∧
    (∀ p : List Nat, p.length = 9 ∨ p.length = 5 → isOkE (parse_delta p) = true) ∧
    (∀ p : List Nat, p.length ≠ 9 → p.length ≠ 5 → isOkE (parse_delta p) = false) ∧
    (∀ p : List Nat, p.length = 13 ∨ p.length = 9 → isOkE (parse_distance p) = true) ∧
    (∀ p : List Nat, p.length ≠ 13 → p.length ≠ 9 → isOkE (parse_distance p) = false) ∧
    (∀ p : List Nat, p.length = 32 ∨ p.length = 28 → isOkE (parse_bundle p) = true) ∧
    (∀ p : List Nat, p.length ≠ 32 → p.length ≠ 28 → isOkE (parse_bundle p) = false) ∧
    (∀ p : List Nat, p.length = 44 ∨ p.length = 40 → isOkE (parse_imu p) = true) ∧
    (∀ p : List Nat, p.length ≠ 44 → p.length ≠ 40 → isOkE (parse_imu p) = false) ∧
    (∀ p : List Nat, p.length = 13 → isOkE (parse_power p) = true) ∧
    (∀ p : List Nat, p.length ≠ 13 → isOkE (parse_power p) = false) := by
  refine ⟨?_, ?_, ?_, ?_, ?_, ?_, ?_, ?_, ?_, ?_, ?_, ?_⟩
  · intro p hp
    rcases hp with hp | hp <;> simp [parse_snapshot, require_len, hp, isOkE]
  · intro p h1 h2
    simp [parse_snapshot, require_len, h1, h2, isOkE]
  · intro p hp
    rcases hp with hp | hp <;> simp [parse_delta, require_len, hp, isOkE]
  · intro p h1 h2
    simp [parse_delta, require_len, h1, h2, isOkE]
  · intro p hp
    rcases hp with hp | hp <;> simp [parse_distance, require_len, hp, isOkE]
  · intro p h1 h2
    simp [parse_distance, require_len, h1, h2, isOkE]
  · intro p hp
    rcases hp with hp | hp <;> simp [parse_bundle, require_len, hp, isOkE]
  · intro p h1 h2
    simp [parse_bundle, require_len, h1, h2, isOkE]
  · intro p hp
    rcases hp with hp | hp <;> simp [parse_imu, require_len, hp, isOkE]
  · intro p h1 h2
    simp [parse_imu, require_len, h1, h2, isOkE]
  · intro p hp
    simp [parse_power, require_len, hp, isOkE]
  · intro p h1
    simp [parse_power, require_len, h1, isOkE]

/-- C9 counterexample: a 9-byte POWER payload — the legacy length the claim
says must parse — raises a protocol error, while the 13-byte current form
parses (and a 9-byte DISTANCE payload, same legacy length, parses fine). -/
theorem c9_power_legacy_counterexample :
    isOkE (parse_power (List.replicate 9 0)) = false ∧
    isOkE (parse_power (List.replicate 13 0)) = true ∧
    isOkE (parse_distance (List.replicate 9 0)) = true := by
  refine ⟨?_, ?_, ?_⟩ <;> decide

/-- C9 witness: the amended theorem applied at concrete payloads of the
legacy, current and a wrong length. -/
theorem c9_parser_lengths_amended_witness :
    isOkE (parse_snapshot (List.replicate 7 0)) = true ∧
    isOkE (parse_snapshot (List.replicate 6 0)) = false ∧
    isOkE (parse_delta (List.replicate 5 0)) = true ∧
    isOkE (parse_distance (List.replicate 9 0)) = true ∧
    isOkE (parse_bundle (List.replicate 28 0)) = true ∧
    isOkE (parse_imu (List.replicate 40 0)) = true ∧
    isOkE (parse_power (List.replicate 13 0)) = true ∧
    isOkE (parse_power (List.replicate 9 0)) = false :=
  ⟨c9_parser_lengths_amended.1 (List.replicate 7 0) (Or.inr (by decide)),
   c9_parser_lengths_amended.2.1 (List.replicate 6 0) (by decide) (by decide),
   c9_parser_lengths_amended.2.2.1 (List.replicate 5 0) (Or.inr (by decide)),
   c9_parser_lengths_amended.2.2.2.2.1 (List.replicate 9 0) (Or.inr (by decide)),
   c9_parser_lengths_amended.2.2.2.2.2.2.1 (List.replicate 28 0) (Or.inr (by decide)),
   c9_parser_lengths_amended.2.2.2.2.2.2.2.2.1 (List.replicate 40 0) (Or.inr (by decide)),
   c9_parser_lengths_amended.2.2.2.2.2.2.2.2.2.2.1 (List.replicate 13 0) (by decide),
   c9_parser_lengths_amended.2.2.2.2.2.2.2.2.2.2.2 (List.replicate 9 0) (by decide)⟩

/-! ### C5 -/

theorem setMode_faulted (s : MCState) (hf : faultTruthy s.fault = true)
    (hm : s.mode = "FAULT") (m : String) :
    (setMode s m).1.mode = "FAULT" ∧ (setMode s m).1.fault = s.fault := by
  unfold setMode
  by_cases hv : ¬ (pyUpper m = "IDLE" ∨ pyUpper m = "SETUP" ∨ pyUpper m = "TEST" ∨ pyUpper m = "FAULT")
  · simp only [if_pos hv]
    exact ⟨hm, trivial⟩
  · simp only [if_neg hv]
    by_cases hF : pyUpper m = "FAULT"
    · have hcond : ¬ (faultTruthy s.fault = true ∧ pyUpper m ≠ "FAULT") := by simp [hF]
      simp only [if_neg hcond, hF, stopMotorsLocked]
      constructor
      · simp
      · simp
    · have hcond : faultTruthy s.fault = true ∧ pyUpper m ≠ "FAULT" := ⟨hf, hF⟩
      simp only [if_pos hcond]
      exact ⟨hm, trivial⟩

/-- C5 (amended): while a TRUTHY fault reason is latched (neither None nor
the empty string), no sequence of `set_mode` calls leaves mode FAULT or
changes the latched reason; and `clear_fault` resets the reason to None,
enters IDLE and stops all motors.  (When mode is FAULT with no truthy
reason — reachable through a bare `set_mode(FAULT)`, or through
`emergency_stop("")` latching the falsy empty string — `set_mode` can
exit FAULT: see the counterexample.) -/
theorem c5_fault_exit_amended :
    (∀ s : MCState, faultTruthy s.fault = true → s.mode = "FAULT" → ∀ ms : List String,
      (applySetModes s ms).mode = "FAULT" ∧ (applySetModes s ms).fault = s.fault) ∧
    (∀ s : MCState, (clearFault s).fault = none ∧ (clearFault s).mode = "IDLE" ∧
      allStopped (clearFault s) = true) := by
  constructor
  · intro s hf hm ms
    induction ms generalizing s with
    | nil => exact ⟨hm, rfl⟩
    | cons m rest ih =>
      have step := setMode_faulted s hf hm m
      have hf2 : faultTruthy (setMode s m).1.fault = true := by rw [step.2]; exact hf
      have hrest := ih (setMode s m).1 hf2 step.1
      refine ⟨hrest.1, ?_⟩
      rw [show applySetModes s (m :: rest) = applySetModes (setMode s m).1 rest from rfl,
          hrest.2, step.2]
  · intro s
    refine ⟨rfl, rfl, ?_⟩
    simp [clearFault, stopMotorsLocked, allStopped, List.all_map, Function.comp]

/-- C5 counterexample: from the initial state, `set_mode("FAULT")` enters
mode FAULT with no latched reason and one further `set_mode("IDLE")` — not
`clear_fault` — is accepted and leaves FAULT; likewise `emergency_stop("")`
latches the falsy empty-string reason with mode FAULT, and `set_mode("IDLE")`
(whose guard is Python truthiness of the reason) is again accepted and
exits FAULT. -/
theorem c5_fault_exit_counterexample :
    (setMode initState "FAULT").1.mode = "FAULT" ∧
    isOkE (setMode (setMode initState "FAULT").1 "IDLE").2 = true ∧
    (setMode (setMode initState "FAULT").1 "IDLE").1.mode = "IDLE" ∧
    (emergencyStop initState "").fault = some "" ∧
    (emergencyStop initState "").mode = "FAULT" ∧
    isOkE (setMode (emergencyStop initState "") "IDLE").2 = true ∧
    (setMode (emergencyStop initState "") "IDLE").1.mode = "IDLE" := by
  exact ⟨by decide, by decide, by decide, by decide, by decide, by decide, by decide⟩

/-- C5 witness: the amended theorem applied to a state with reason
"manual" latched and the call sequence IDLE, SETUP, TEST. -/
theorem c5_fault_exit_amended_witness :
    ((applySetModes faultedState ["IDLE", "SETUP", "TEST"]).mode = "FAULT" ∧
      (applySetModes faultedState ["IDLE", "SETUP", "TEST"]).fault = faultedState.fault) ∧
    ((clearFault faultedState).fault = none ∧ (clearFault faultedState).mode = "IDLE" ∧
      allStopped (clearFault faultedState) = true) :=
  ⟨c5_fault_exit_amended.1 faultedState (by decide) rfl ["IDLE", "SETUP", "TEST"],
   c5_fault_exit_amended.2 faultedState⟩

/-! ### C4 -/

/-- C4 (amended): the `stop_all`/`emergency_stop` path latches the fault
reason (a non-None reason survives, a None reason is set), `set_mode`
never changes the reason, and `clear_fault` resets it to None; but the
safety-violation branches of `_command_motors`, `_run_hall_job` and
`_poll_loop` assign `fault = status.reason` unconditionally and so can
REPLACE an already latched reason (see the counterexample). -/
theorem c4_fault_latch_amended :
    (∀ (s : MCState) (r : String), s.fault ≠ none → (stopAll s r true).fault = s.fault) ∧
    (∀ (s : MCState) (r : String), s.fault = none → (stopAll s r true).fault = some r) ∧
    (∀ (s : MCState) (r : String), emergencyStop s r = stopAll s r true) ∧
    (∀ (s : MCState) (m : String), (setMode s m).1.fault = s.fault) ∧
    (∀ s : MCState, (clearFault s).fault = none) := by
  refine ⟨?_, ?_, ?_, ?_, ?_⟩
  · intro s r hf
    simp [stopAll, stopMotorsLocked, hf]
  · intro s r hf
    simp [stopAll, stopMotorsLocked, hf]
  · intro s r
    rfl
  · intro s m
    unfold setMode
    by_cases hv : ¬ (pyUpper m = "IDLE" ∨ pyUpper m = "SETUP" ∨ pyUpper m = "TEST" ∨ pyUpper m = "FAULT")
    · simp only [if_pos hv]
    · simp only [if_neg hv]
      by_cases hc : faultTruthy s.fault = true ∧ pyUpper m ≠ "FAULT"
      · simp only [if_pos hc]
      · simp only [if_neg hc, stopMotorsLocked]
        by_cases h1 : pyUpper m = "IDLE" <;> by_cases h2 : pyUpper m = "SETUP" <;>
          simp [h1, h2]
  · intro s
    simp [clearFault, stopMotorsLocked]

/-- C4 counterexample: with reason "manual" already latched and the sensor
snapshot stale, one pass of `_command_motors` (a fault-raising safety
transition) REPLACES the latched reason with "stale sensor data" — the
first reason does not win. -/
theorem c4_fault_latch_counterexample :
    c4State.fault = some "manual" ∧
    (commandMotors c4State 10 [1, 1, 1, 1] 200).1.fault = some "stale sensor data" ∧
    (commandMotors c4State 10 [1, 1, 1, 1] 200).1.fault ≠ c4State.fault := by
  have hst : mcSafety.evaluate 10 [(1, 1600), (2, 1600), (3, 1600), (4, 1600)] (some 0) =
      ⟨false, some "stale sensor data"⟩ := by
    norm_num [mcSafety, SafetyMonitor.evaluate, STALE_TIMEOUT]
  refine ⟨rfl, ?_, ?_⟩ <;>
    simp [commandMotors, hst, reasonIsHallBelow, strStartsWith, listPrefixB,
      stopMotorsLocked, c4State]

/-- C4 witness: the amended theorem applied to a faulted state ("second"
does not replace "manual") and to a clean state ("first" is latched). -/
theorem c4_fault_latch_amended_witness :
    (stopAll faultedState "second" true).fault = faultedState.fault ∧
    (stopAll initState "first" true).fault = some "first" ∧
    (setMode faultedState "IDLE").1.fault = faultedState.fault ∧
    (clearFault faultedState).fault = none :=
  ⟨c4_fault_latch_amended.1 faultedState "second" (by decide),
   c4_fault_latch_amended.2.1 initState "first" rfl,
   c4_fault_latch_amended.2.2.2.1 faultedState "IDLE",
   c4_fault_latch_amended.2.2.2.2 faultedState⟩

/-! ### C6 -/

/-- C6 (amended): a violated precondition in `setup_jog`, `test_up`,
`test_direction` and `set_mode` returns an error with the supervisor state
EXACTLY unchanged, and `setup_hall_run` with an invalid direction name
likewise; but a mode/fault/job-running violation in `setup_hall_run` is
raised only AFTER `cancel_job` has run, so the failed call still leaves
the generation incremented, the job cancelled and the hall flags cleared
(post-state `cancelJob s`, see the counterexample). -/
theorem c6_precondition_amended :
    (∀ s : MCState, isOkE (setupJog s).2 = false → (setupJog s).1 = s) ∧
    (∀ s : MCState, isOkE (testUp s).2 = false → (testUp s).1 = s) ∧
    (∀ (s : MCState) (now : ℚ) (name : String),
      isOkE (testDirection s now name).2 = false → (testDirection s now name).1 = s) ∧
    (∀ (s : MCState) (m : String), isOkE (setMode s m).2 = false → (setMode s m).1 = s) ∧
    (∀ (s : MCState) (d : String), ¬ (pyLower d = "forward" ∨ pyLower d = "reverse") →
      setupHallRun s d = (s, .error "invalid direction")) ∧
    (∀ (s : MCState) (d : String), (pyLower d = "forward" ∨ pyLower d = "reverse") →
      isOkE (setupHallRun s d).2 = false → (setupHallRun s d).1 = cancelJob s) := by
  refine ⟨?_, ?_, ?_, ?_, ?_, ?_⟩
  · intro s h
    cases hE : ensureReady s "SETUP" with
    | ok v => simp [setupJog, hE, isOkE] at h
    | error e => simp [setupJog, hE]
  · intro s h
    cases hE : ensureReady s "TEST" with
    | ok v =>
      by_cases hsa : s.setupActivated <;> simp [testUp, hE, isOkE, hsa] at h ⊢
    | error e => simp [testUp, hE]
  · intro s now name h
    by_cases hn : (DIRECTION_MAP.lookup (pyLower name)).isNone
    · simp [testDirection, hn]
    · cases hE : ensureReady s "TEST" with
      | ok v =>
        by_cases hc : (mcSafety.evaluate now s.lastHalls s.lastUpdate).can_move <;>
          simp [testDirection, hn, hE, isOkE, hc] at h ⊢
      | error e => simp [testDirection, hn, hE]
  · intro s m h
    unfold setMode at h ⊢
    by_cases hv : ¬ (pyUpper m = "IDLE" ∨ pyUpper m = "SETUP" ∨ pyUpper m = "TEST" ∨ pyUpper m = "FAULT")
    · simp only [if_pos hv]
    · simp only [if_neg hv] at h ⊢
      by_cases hc : faultTruthy s.fault = true ∧ pyUpper m ≠ "FAULT"
      · simp only [if_pos hc]
      · simp only [if_neg hc, isOkE] at h
        cases h
  · intro s d hd
    simp [setupHallRun, hd]
  · intro s d hd h
    rcases hd with hd | hd <;>
    · cases hE : ensureReady (cancelJob s) "SETUP" with
      | ok v => simp [setupHallRun, hd, hE, isOkE] at h
      | error e => simp [setupHallRun, hd, hE]

/-- C6 counterexample: `setup_hall_run("forward")` called in mode IDLE is
rejected ("mode must be SETUP"), yet the generation counter was already
incremented and the state mutated — the claimed "state unchanged: no
generation increment, no job cancellation" fails. -/
theorem c6_precondition_counterexample :
    isOkE (setupHallRun initState "forward").2 = false ∧
    (setupHallRun initState "forward").1.jobGen = initState.jobGen + 1 ∧
    (setupHallRun initState "forward").1 ≠ initState := by
  refine ⟨by decide, by decide, by decide⟩

/-- C6 witness: the amended theorem applied in mode IDLE, where every
guarded call fails its precondition. -/
theorem c6_precondition_amended_witness :
    (setupJog initState).1 = initState ∧
    (testUp initState).1 = initState ∧
    (testDirection initState 0 "left").1 = initState ∧
    (setMode initState "NOPE").1 = initState ∧
    setupHallRun initState "sideways" = (initState, .error "invalid direction") ∧
    (setupHallRun initState "forward").1 = cancelJob initState :=
  ⟨c6_precondition_amended.1 initState (by decide),
   c6_precondition_amended.2.1 initState (by decide),
   c6_precondition_amended.2.2.1 initState 0 "left" (by decide),
   c6_precondition_amended.2.2.2.1 initState "NOPE" (by decide),
   c6_precondition_amended.2.2.2.2.1 initState "sideways" (by decide),
   c6_precondition_amended.2.2.2.2.2 initState "forward" (by decide) (by decide)⟩

/-! ### C10 -/

/-- C10: `test_up` has the hidden precondition `setup_activated`: in mode
TEST with no fault and no job but `setup_activated = false` it fails with
"setup must be activated before test" and starts nothing; among the
supervisor operations only a successful `set_mode(SETUP)` sets the flag,
`set_mode(IDLE)` and `clear_fault` clear it, every other operation leaves
it unchanged; and `test_direction` succeeds in the same state (no such
requirement). -/
theorem c10_test_up_setup_gate :
    (∀ s : MCState, s.mode = "TEST" → s.fault = none → s.jobActive = false →
      s.setupActivated = false →
      testUp s = (s, .error "setup must be activated before test")) ∧
    (∀ (s : MCState) (m : String), isOkE (setMode s m).2 = true →
      (setMode s m).1.setupActivated =
        (if pyUpper m = "SETUP" then true
         else if pyUpper m = "IDLE" then false
         else s.setupActivated)) ∧
    (∀ s : MCState, (clearFault s).setupActivated = false) ∧
    (∀ s : MCState, (cancelJob s).setupActivated = s.setupActivated) ∧
    (∀ (s : MCState) (r : String) (b : Bool), (stopAll s r b).setupActivated = s.setupActivated) ∧
    (∀ s : MCState, (setupJog s).1.setupActivated = s.setupActivated) ∧
    (∀ (s : MCState) (d : String), (setupHallRun s d).1.setupActivated = s.setupActivated) ∧
    (∀ s : MCState, (testUp s).1.setupActivated = s.setupActivated) ∧
    (∀ (s : MCState) (now : ℚ) (n : String),
      (testDirection s now n).1.setupActivated = s.setupActivated) ∧
    (∀ (s : MCState) (now : ℚ), s.mode = "TEST" → s.fault = none → s.jobActive = false →
      (mcSafety.evaluate now s.lastHalls s.lastUpdate).can_move = true →
      testDirection s now "up" = (startJob s "dir_up", .ok "dir_up")) := by
  refine ⟨?_, ?_, ?_, ?_, ?_, ?_, ?_, ?_, ?_, ?_⟩
  · intro s hm hf hj hsa
    have hE : ensureReady s "TEST" = .ok () := by
      simp [ensureReady, faultTruthy, hm, hf, hj]
    simp [testUp, hE, hsa]
  · intro s m h
    unfold setMode at h ⊢
    by_cases hv : ¬ (pyUpper m = "IDLE" ∨ pyUpper m = "SETUP" ∨ pyUpper m = "TEST" ∨ pyUpper m = "FAULT")
    · simp only [if_pos hv, isOkE] at h
      cases h
    · simp only [if_neg hv] at h ⊢
      by_cases hc : faultTruthy s.fault = true ∧ pyUpper m ≠ "FAULT"
      · simp only [if_pos hc, isOkE] at h
        cases h
      · simp only [if_neg hc, stopMotorsLocked]
        by_cases h1 : pyUpper m = "SETUP" <;> by_cases h2 : pyUpper m = "IDLE" <;>
          simp [h1, h2]
  · intro s
    simp [clearFault, stopMotorsLocked]
  · intro s
    simp [cancelJob, stopMotorsLocked]
  · intro s r b
    cases b <;> simp [stopAll, stopMotorsLocked]
  · intro s
    cases hE : ensureReady s "SETUP" with
    | ok v => simp [setupJog, hE, startJob]
    | error e => simp [setupJog, hE]
  · intro s d
    unfold setupHallRun
    dsimp only
    split
    · rfl
    · split <;> simp [startJob, cancelJob, stopMotorsLocked]
  · intro s
    cases hE : ensureReady s "TEST" with
    | ok v => by_cases hsa : s.setupActivated <;> simp [testUp, hE, hsa, startJob]
    | error e => simp [testUp, hE]
  · intro s now n
    by_cases hn : (DIRECTION_MAP.lookup (pyLower n)).isNone
    · simp [testDirection, hn]
    · cases hE : ensureReady s "TEST" with
      | ok v =>
        by_cases hc : (mcSafety.evaluate now s.lastHalls s.lastUpdate).can_move <;>
          simp [testDirection, hn, hE, hc, startJob]
      | error e => simp [testDirection, hn, hE]
  · intro s now hm hf hj hc
    have hE : ensureReady s "TEST" = .ok () := by
      simp [ensureReady, faultTruthy, hm, hf, hj]
    have hup : pyLower "up" = "up" := by decide
    have hlk : (DIRECTION_MAP.lookup "up").isNone = false := by decide
    simp [testDirection, hup, hlk, hE, hc]

/-- C10 witness: the theorem applied in a TEST state entered without SETUP
(`testState`) and, for the set_mode part, at the initial state. -/
theorem c10_test_up_setup_gate_witness :
    testUp testState = (testState, .error "setup must be activated before test") ∧
    (setMode initState "SETUP").1.setupActivated =
      (if pyUpper "SETUP" = "SETUP" then true
       else if pyUpper "SETUP" = "IDLE" then false
       else initState.setupActivated) ∧
    (clearFault testState).setupActivated = false ∧
    testDirection testState 0 "up" = (startJob testState "dir_up", .ok "dir_up") :=
  ⟨c10_test_up_setup_gate.1 testState rfl rfl rfl rfl,
   c10_test_up_setup_gate.2.1 initState "SETUP" (by decide),
   c10_test_up_setup_gate.2.2.1 testState,
   c10_test_up_setup_gate.2.2.2.2.2.2.2.2.2 testState 0 rfl rfl rfl
     (by norm_num [testState, initState, mcSafety, SafetyMonitor.evaluate,
       STALE_TIMEOUT, HALL_THRESHOLD])⟩

/-! ### C1 -/

/-- C1 (code behaviour at the failing input): with every hall at 1499 <
hall_threshold = 1500, fresh data, and no hall-below-tolerant job
(`allow_hall_below = setup_hall_active = false`), BOTH the motor-command
path `_command_motors` and the sensor-poll path `_poll_loop` stop all
motors (running flags cleared, stop ops issued) but leave `fault = None`
and mode unchanged at "SETUP" — they never transition to FAULT, although
the repository's own test `test_normal_hall_below_threshold_faults`
asserts that this very situation sets a fault and enters FAULT mode. -/
theorem c1_hall_below_no_fault_code_eval :
    (commandMotors c1State 0 [1, 1, 1, 1] 200).1.fault = none ∧
    (commandMotors c1State 0 [1, 1, 1, 1] 200).1.mode = "SETUP" ∧
    allStopped (commandMotors c1State 0 [1, 1, 1, 1] 200).1 = true ∧
    (commandMotors c1State 0 [1, 1, 1, 1] 200).2 = [.stop 1, .stop 1, .stop 1, .stop 1] ∧
    (pollCycle c1State 0 [(1, 1499), (2, 1499), (3, 1499), (4, 1499)]).1.fault = none ∧
    (pollCycle c1State 0 [(1, 1499), (2, 1499), (3, 1499), (4, 1499)]).1.mode = "SETUP" ∧
    (pollCycle c1State 0 [(1, 1499), (2, 1499), (3, 1499), (4, 1499)]).2 = true := by
  have hst : mcSafety.evaluate 0 [(1, 1499), (2, 1499), (3, 1499), (4, 1499)] (some 0) =
      ⟨false, some "hall below 1500"⟩ := by
    norm_num [mcSafety, SafetyMonitor.evaluate, STALE_TIMEOUT, HALL_THRESHOLD]
    rfl
  have hdu : dictUpdate [(1, 1499), (2, 1499), (3, 1499), (4, 1499)]
      [(1, 1499), (2, 1499), (3, 1499), (4, 1499)] =
      [(1, 1499), (2, 1499), (3, 1499), (4, 1499)] := by decide
  have hops : stopRunningOps c1State = [.stop 1, .stop 1, .stop 1, .stop 1] := by decide
  refine ⟨?_, ?_, ?_, ?_, ?_, ?_, ?_⟩ <;>
    first
    | (simp [commandMotors, pollCycle, c1State, hdu, hst, hops, reasonIsHallBelow,
        strStartsWith, listPrefixB, stopMotorsLocked, allStopped, c1Motors]
       done)
    | (simp [commandMotors, pollCycle, c1State, hdu, hst, hops, reasonIsHallBelow,
        strStartsWith, listPrefixB, stopMotorsLocked, allStopped, c1Motors]
       decide)

end ArachnoNestor
